import Mathlib

/-!
Verification of the advanced-alchemy litestar lifecycle adapter and the
SQLAlchemy async service layer, as a shallow embedding of
`advanced_alchemy/extensions/litestar/plugins/init/config/asyncio.py` and
`advanced_alchemy/service/_async.py`.

Python sessions, engines and session makers are modelled by small concrete
types; the effect of a handler invocation is captured as the ordered list of
session operations it performs, the resulting request-scope state, and whether
an exception propagates out of the call.
-/

namespace AdvancedAlchemy

/-! ### Association-list state (request scope and application state) -/

/-- Look a key up in a string-keyed association list (first binding wins). -/
def mapGet {β : Type} : List (String × β) → String → Option β
  | [], _ => none
  | p :: t, k => if p.1 = k then some p.2 else mapGet t k

/-- Store a binding, dropping any previous binding of the same key. -/
def mapSet {β : Type} (l : List (String × β)) (k : String) (v : β) :
    List (String × β) :=
  (k, v) :: l.filter (fun p => p.1 ≠ k)

/-- Delete every binding of a key. -/
def mapDel {β : Type} (l : List (String × β)) (k : String) :
    List (String × β) :=
  l.filter (fun p => p.1 ≠ k)

theorem mapGet_mapSet_self {β : Type} (l : List (String × β)) (k : String)
    (v : β) : mapGet (mapSet l k v) k = some v := by
  simp [mapGet, mapSet]

theorem mapGet_mapDel_self {β : Type} (l : List (String × β)) (k : String) :
    mapGet (mapDel l k) k = none := by
  induction l with
  | nil => rfl
  | cons p t ih =>
    by_cases h : p.1 = k
    · simpa [mapDel, List.filter_cons, h] using ih
    · simpa [mapGet, mapDel, List.filter_cons, h] using ih

/-! ### Sessions, ASGI messages and request scope -/

/-- A session object; distinct numbers model distinct session instances. -/
abbrev Session := Nat

/-- An ASGI message: its `type` string, and the `status` field carried by a
response-start event (read by the handlers only after checking the type). -/
structure Message where
  type : String
  status : Nat
  deriving Repr, DecidableEq

/-- `litestar.constants.HTTP_RESPONSE_START`. -/
def HTTP_RESPONSE_START : String := "http.response.start"

/-- Modelled from the spec: the fixed request-scope key under which the
session is stored (`SESSION_SCOPE_KEY` from
`extensions/litestar/plugins/init/config/common.py`, absent from the
sources). -/
def SESSION_SCOPE_KEY : String := "_sqlalchemy_db_session"

/-- Modelled from the spec: ASGI message types treated as session-terminus
events — the response has been sent or failed to send
(`SESSION_TERMINUS_ASGI_EVENTS` from
`extensions/litestar/plugins/init/config/common.py`, absent from the
sources). -/
def SESSION_TERMINUS_ASGI_EVENTS : List String :=
  [HTTP_RESPONSE_START, "http.disconnect", "websocket.disconnect",
   "websocket.close"]

/-- Request-scope state: string-keyed storage attached to one request. -/
structure Scope where
  state : List (String × Session)
  deriving Repr, DecidableEq

/-- `litestar.utils.get_litestar_scope_state`. -/
def get_litestar_scope_state (scope : Scope) (key : String) : Option Session :=
  mapGet scope.state key

/-- `litestar.utils.set_litestar_scope_state`. -/
def set_litestar_scope_state (scope : Scope) (key : String) (v : Session) :
    Scope :=
  ⟨mapSet scope.state key v⟩

/-- `litestar.utils.delete_litestar_scope_state`. -/
def delete_litestar_scope_state (scope : Scope) (key : String) : Scope :=
  ⟨mapDel scope.state key⟩

/-- The session operations a handler can invoke, in invocation order. -/
inductive SessionAction
  | commit
  | rollback
  | close
  deriving Repr, DecidableEq

/-- Environment behaviour of the session: whether its `commit` or its
`rollback` coroutine raises when awaited. -/
structure SessionBehavior where
  commitRaises : Bool
  rollbackRaises : Bool
  deriving Repr, DecidableEq

/-- Observable outcome of one handler invocation: the session operations
invoked in order, the request scope after the call, and whether an exception
propagates to the caller. -/
structure HandlerResult where
  actions : List SessionAction
  scope : Scope
  raised : Bool
  deriving Repr, DecidableEq

/-! ### `default_before_send_handler` (asyncio.py lines 35-48) -/

/-- Embedding of `default_before_send_handler`: if a session is stored and the
message type is a terminus event, close the session and delete its key;
otherwise do nothing. -/
def default_before_send_handler (message : Message) (scope : Scope) :
    HandlerResult :=
  match get_litestar_scope_state scope SESSION_SCOPE_KEY with
  | some _ =>
    if message.type ∈ SESSION_TERMINUS_ASGI_EVENTS then
      ⟨[SessionAction.close],
       delete_litestar_scope_state scope SESSION_SCOPE_KEY, false⟩
    else ⟨[], scope, false⟩
  | none => ⟨[], scope, false⟩

/-! ### `autocommit_handler_maker` (asyncio.py lines 51-102) -/

/-- The closure returned by `autocommit_handler_maker`: the configuration it
captured.  `extra_commit_statuses` and `extra_rollback_statuses` are the
(already-defaulted) sets, as lists of status codes. -/
structure AutocommitHandler where
  commit_on_redirect : Bool
  extra_commit_statuses : List Nat
  extra_rollback_statuses : List Nat
  deriving Repr, DecidableEq

/-- Embedding of `autocommit_handler_maker`: defaults the two status sets to
empty, rejects overlapping sets with a `ValueError`, and otherwise returns the
handler closure. -/
def autocommit_handler_maker (commit_on_redirect : Bool)
    (extra_commit_statuses : Option (List Nat))
    (extra_rollback_statuses : Option (List Nat)) :
    Except String AutocommitHandler :=
  let ecs := extra_commit_statuses.getD []
  let ers := extra_rollback_statuses.getD []
  if 0 < (ecs.filter (fun s => s ∈ ers)).length then
    Except.error
      "Extra rollback statuses and commit statuses must not share any status codes"
  else
    Except.ok ⟨commit_on_redirect, ecs, ers⟩

/-- Upper bound (exclusive) of the captured `commit_range`:
`range(200, 300 if not commit_on_redirect else 400)`. -/
def AutocommitHandler.commitUpper (h : AutocommitHandler) : Nat :=
  if h.commit_on_redirect then 400 else 300

/-- The try-block of the handler, given a session is stored: on a
response-start message decide commit versus rollback from the status code and
invoke the chosen operation (which may raise, per the session behaviour); on
any other message do nothing.  Returns the invoked operations and whether the
block raised. -/
def AutocommitHandler.tryStep (h : AutocommitHandler) (sb : SessionBehavior)
    (message : Message) : List SessionAction × Bool :=
  if message.type = HTTP_RESPONSE_START then
    if (200 ≤ message.status ∧ message.status < h.commitUpper ∨
        message.status ∈ h.extra_commit_statuses) ∧
        message.status ∉ h.extra_rollback_statuses then
      ([SessionAction.commit], sb.commitRaises)
    else
      ([SessionAction.rollback], sb.rollbackRaises)
  else ([], false)

/-- Embedding of the `handler` closure built by `autocommit_handler_maker`:
run the try-block when a session is stored, then — on the finally path,
whether or not the try-block raised — close the session and delete its key
when the message type is a terminus event.  An exception from the try-block
propagates to the caller. -/
def AutocommitHandler.run (h : AutocommitHandler) (sb : SessionBehavior)
    (message : Message) (scope : Scope) : HandlerResult :=
  match get_litestar_scope_state scope SESSION_SCOPE_KEY with
  | none => ⟨[], scope, false⟩
  | some _ =>
    let t := h.tryStep sb message
    if message.type ∈ SESSION_TERMINUS_ASGI_EVENTS then
      ⟨t.1 ++ [SessionAction.close],
       delete_litestar_scope_state scope SESSION_SCOPE_KEY, t.2⟩
    else ⟨t.1, scope, t.2⟩

/-! ### Application state, `SQLAlchemyAsyncConfig` providers and shutdown
(asyncio.py lines 150-197) -/

/-- A session factory: each call yields a fresh session (numbered by the
counter). -/
structure SessionMaker where
  counter : Nat
  deriving Repr, DecidableEq

/-- Invoke the factory: a new session, and the factory state after. -/
def SessionMaker.call (m : SessionMaker) : Session × SessionMaker :=
  (m.counter, ⟨m.counter + 1⟩)

/-- A value stored in application state: the engine or the session maker. -/
inductive StateVal
  | engine (e : Nat)
  | maker (m : SessionMaker)
  deriving Repr, DecidableEq

/-- The `Litestar.state` instance: string-keyed application storage. -/
structure AppState where
  entries : List (String × StateVal)
  deriving Repr, DecidableEq

/-- `state.get(key)`: the stored value, or `none` when the key is absent. -/
def AppState.get (s : AppState) (k : String) : Option StateVal :=
  mapGet s.entries k

/-- `state.pop(key)`: remove and return the stored value; a `KeyError`
(modelled as `none`) when the key is absent. -/
def AppState.pop (s : AppState) (k : String) : Option (StateVal × AppState) :=
  match mapGet s.entries k with
  | some v => some (v, ⟨mapDel s.entries k⟩)
  | none => none

/-- The configuration fields of `SQLAlchemyAsyncConfig` the providers read. -/
structure SQLAlchemyAsyncConfig where
  engine_app_state_key : String
  session_maker_app_state_key : String
  deriving Repr, DecidableEq

/-- The dataclass defaults of the state keys. -/
def defaultConfig : SQLAlchemyAsyncConfig :=
  ⟨"db_engine", "session_maker_class"⟩

/-- Embedding of `SQLAlchemyAsyncConfig.provide_engine`: returns
`state.get(self.engine_app_state_key)` unchecked (the `cast` performs no
runtime check), so an absent key yields `none` instead of an error. -/
def SQLAlchemyAsyncConfig.provide_engine (cfg : SQLAlchemyAsyncConfig)
    (state : AppState) : Option StateVal :=
  state.get cfg.engine_app_state_key

/-- Embedding of `SQLAlchemyAsyncConfig.provide_session`: return the session
stored in request scope if any; otherwise read the session maker from
application state (`state[key]`, a `KeyError` — modelled as `Except.error` —
when absent or not a maker), call it once, store the new session under the
session scope key and return it.  The `Nat` component counts session-maker
invocations performed by the call. -/
def SQLAlchemyAsyncConfig.provide_session (cfg : SQLAlchemyAsyncConfig)
    (state : AppState) (scope : Scope) :
    Except String (Session × Scope × Nat) :=
  match get_litestar_scope_state scope SESSION_SCOPE_KEY with
  | some session => Except.ok (session, scope, 0)
  | none =>
    match state.get cfg.session_maker_app_state_key with
    | some (StateVal.maker m) =>
      let session := (m.call).1
      Except.ok
        (session, set_litestar_scope_state scope SESSION_SCOPE_KEY session, 1)
    | _ => Except.error "KeyError"

/-- Embedding of `SQLAlchemyAsyncConfig.on_shutdown`:
`app.state.pop(self.engine_app_state_key)` then dispose the popped engine.
Returns the application state after and the value disposed; `Except.error`
models the `KeyError` of popping an absent key (then nothing is disposed). -/
def SQLAlchemyAsyncConfig.on_shutdown (cfg : SQLAlchemyAsyncConfig)
    (state : AppState) : Except String (AppState × StateVal) :=
  match state.pop cfg.engine_app_state_key with
  | some (v, state2) => Except.ok (state2, v)
  | none => Except.error "KeyError"

/-! ### Service layer (`service/_async.py`) -/

/-- A Python attribute value: `none` models `None`. -/
abbrev Val := Option Int

/-- An entity instance of the bound model type: its attribute values, keyed
by attribute name. -/
structure Entity where
  attrs : List (String × Val)
  deriving Repr, DecidableEq

/-- `getattr(e, a)` for a mapped attribute (unset attributes read as
`None`). -/
def Entity.getAttr (e : Entity) (a : String) : Val :=
  (mapGet e.attrs a).getD none

/-- `setattr(e, a, v)`. -/
def Entity.setAttr (e : Entity) (a : String) (v : Val) : Entity :=
  ⟨mapSet e.attrs a v⟩

/-- `e.to_dict()`: the attribute mapping of the entity. -/
def Entity.to_dict (e : Entity) : List (String × Val) :=
  e.attrs

/-- The repository bound by the service: its configured identifier attribute
name (default `id`). -/
structure Repository where
  id_attribute : String
  deriving Repr, DecidableEq

/-- Modelled from the spec: repository helper returning the value of the
identifier attribute of an item (`get_id_attribute_value` of the repository
base class, absent from the sources); `id_attribute` overrides the
repository-level attribute name when supplied. -/
def Repository.get_id_attribute_value (r : Repository) (item : Entity)
    (id_attribute : Option String) : Val :=
  item.getAttr (id_attribute.getD r.id_attribute)

/-- Modelled from the spec: repository helper writing `item_id` (even when
null) into the identifier attribute of an item and returning the item
(`set_id_attribute_value` of the repository base class, absent from the
sources). -/
def Repository.set_id_attribute_value (r : Repository) (item_id : Val)
    (item : Entity) (id_attribute : Option String) : Entity :=
  item.setAttr (id_attribute.getD r.id_attribute) item_id

/-- Input to a service write operation: an entity instance of the bound
model type, or an untyped mapping. -/
inductive InputData
  | entity (e : Entity)
  | mapping (d : List (String × Val))
  deriving Repr, DecidableEq

/-- Modelled from the spec: construct an entity of the bound model type
populated from the keys and values of a mapping (`model_from_dict` from
`repository/_util.py`, absent from the sources). -/
def model_from_dict (d : List (String × Val)) : Entity :=
  ⟨d⟩

/-- The service object: it wraps exactly one repository. -/
structure SQLAlchemyAsyncRepositoryService where
  repository : Repository
  deriving Repr, DecidableEq

/-- Embedding of `to_model` (lines 163-174): a mapping is converted through
`model_from_dict`; an entity instance is returned unchanged. -/
def SQLAlchemyAsyncRepositoryService.to_model
    (_svc : SQLAlchemyAsyncRepositoryService) (data : InputData) : Entity :=
  match data with
  | InputData.mapping d => model_from_dict d
  | InputData.entity e => e

/-- A call delegated to the wrapped repository, with the data it receives. -/
inductive RepoCall
  | add (data : Entity)
  | add_many (data : List Entity)
  | update (data : Entity)
  | update_many (data : List Entity)
  | upsert (data : Entity)
  | upsert_many (data : List Entity)
  | get_or_upsert (kwargs : List (String × Val))
  deriving Repr, DecidableEq

/-- Embedding of `create` (lines 251-261): convert then delegate to
`repository.add`. -/
def SQLAlchemyAsyncRepositoryService.create
    (svc : SQLAlchemyAsyncRepositoryService) (data : InputData) : RepoCall :=
  RepoCall.add (svc.to_model data)

/-- Embedding of `create_many` (lines 263-282): convert each item then
delegate to `repository.add_many`. -/
def SQLAlchemyAsyncRepositoryService.create_many
    (svc : SQLAlchemyAsyncRepositoryService) (data : List InputData) :
    RepoCall :=
  RepoCall.add_many (data.map svc.to_model)

/-- Embedding of `update` (lines 284-336): convert the input, raise
`RepositoryError` (the `Option String` component) when neither `item_id` nor
the identifier attribute of the converted model is set, otherwise overwrite
the identifier from `item_id` when given and delegate to
`repository.update`.  The first component lists the repository calls made:
empty on the error path, which returns before any repository operation. -/
def SQLAlchemyAsyncRepositoryService.update
    (svc : SQLAlchemyAsyncRepositoryService) (data : InputData)
    (item_id : Val) (id_attribute : Option String) :
    List RepoCall × Option String :=
  let m := svc.to_model data
  if item_id = none ∧
      svc.repository.get_id_attribute_value m id_attribute = none then
    ([], some "RepositoryError: Could not identify ID attribute value")
  else
    let m2 :=
      if item_id ≠ none then
        svc.repository.set_id_attribute_value item_id m id_attribute
      else m
    ([RepoCall.update m2], none)

/-- Embedding of `update_many` (lines 338-357): convert each item then
delegate to `repository.update_many`. -/
def SQLAlchemyAsyncRepositoryService.update_many
    (svc : SQLAlchemyAsyncRepositoryService) (data : List InputData) :
    RepoCall :=
  RepoCall.update_many (data.map svc.to_model)

/-- Embedding of `upsert` (lines 359-400): convert the input, write `item_id`
(even when null) into the identifier attribute via
`set_id_attribute_value`, then delegate to `repository.upsert`. -/
def SQLAlchemyAsyncRepositoryService.upsert
    (svc : SQLAlchemyAsyncRepositoryService) (data : InputData)
    (item_id : Val) : RepoCall :=
  let m := svc.repository.set_id_attribute_value item_id (svc.to_model data)
    none
  RepoCall.upsert m

/-- Embedding of `upsert_many` (lines 402-432): convert each item then
delegate to `repository.upsert_many`. -/
def SQLAlchemyAsyncRepositoryService.upsert_many
    (svc : SQLAlchemyAsyncRepositoryService) (data : List InputData) :
    RepoCall :=
  RepoCall.upsert_many (data.map svc.to_model)

/-- Embedding of `get_or_upsert` (lines 434-479): convert the keyword
arguments through `to_model` and delegate its `to_dict()` expansion to
`repository.get_or_upsert`. -/
def SQLAlchemyAsyncRepositoryService.get_or_upsert
    (svc : SQLAlchemyAsyncRepositoryService)
    (kwargs : List (String × Val)) : RepoCall :=
  RepoCall.get_or_upsert (svc.to_model (InputData.mapping kwargs)).to_dict

/-! ### Helper lemmas -/

theorem Entity.getAttr_setAttr_self (e : Entity) (a : String) (v : Val) :
    (e.setAttr a v).getAttr a = v := by
  simp [Entity.getAttr, Entity.setAttr, mapGet_mapSet_self]

/-- The status-code decision captured by the handler, rephrased with the
explicit 200-299 / 200-399 ranges of the specification. -/
theorem commit_decision_iff (c : Bool) (ecs ers : List Nat) (st : Nat) :
    ((200 ≤ st ∧ st < (if c then 400 else 300) ∨ st ∈ ecs) ∧ st ∉ ers) ↔
      (((200 ≤ st ∧ st ≤ 299) ∨ (c = true ∧ 200 ≤ st ∧ st ≤ 399) ∨
        st ∈ ecs) ∧ st ∉ ers) := by
  cases c with
  | false =>
    rw [if_neg (by simp : ¬(false = true))]
    simp only [Bool.false_eq_true, false_and, false_or]
    constructor
    · rintro ⟨h1 | h2, h3⟩
      · exact ⟨Or.inl ⟨h1.1, by omega⟩, h3⟩
      · exact ⟨Or.inr h2, h3⟩
    · rintro ⟨h1 | h2, h3⟩
      · exact ⟨Or.inl ⟨h1.1, by omega⟩, h3⟩
      · exact ⟨Or.inr h2, h3⟩
  | true =>
    rw [if_pos rfl]
    simp only [eq_self_iff_true, true_and]
    constructor
    · rintro ⟨h1 | h2, h3⟩
      · by_cases h4 : st ≤ 299
        · exact ⟨Or.inl ⟨h1.1, h4⟩, h3⟩
        · exact ⟨Or.inr (Or.inl ⟨h1.1, by omega⟩), h3⟩
      · exact ⟨Or.inr (Or.inr h2), h3⟩
    · rintro ⟨h1 | h2 | h3, h4⟩
      · exact ⟨Or.inl ⟨h1.1, by omega⟩, h4⟩
      · exact ⟨Or.inl ⟨h2.1, by omega⟩, h4⟩
      · exact ⟨Or.inr h3, h4⟩

/-- Shape of a successfully constructed autocommit handler. -/
theorem autocommit_handler_maker_ok (c : Bool)
    (ecs ers : Option (List Nat)) (cfg : AutocommitHandler)
    (hmk : autocommit_handler_maker c ecs ers = Except.ok cfg) :
    cfg = ⟨c, ecs.getD [], ers.getD []⟩ := by
  simp only [autocommit_handler_maker] at hmk
  split at hmk
  · exact absurd hmk (by simp)
  · exact (Except.ok.injEq _ _ ▸ hmk).symm

/-! ### Claim theorems -/

/-- C3: `autocommit_handler_maker` fails at handler-construction time if and
only if the extra-commit and extra-rollback status sets share a status code;
with disjoint (or absent) sets it returns a handler. -/
theorem autocommit_handler_maker_fails_iff (c : Bool)
    (ecs ers : Option (List Nat)) :
    ((∃ msg, autocommit_handler_maker c ecs ers = Except.error msg) ↔
       ∃ s, s ∈ ecs.getD [] ∧ s ∈ ers.getD []) ∧
    ((∃ h, autocommit_handler_maker c ecs ers = Except.ok h) ↔
       ∀ s ∈ ecs.getD [], s ∉ ers.getD []) := by
  have hmem : 0 < ((ecs.getD []).filter (fun s => s ∈ ers.getD [])).length ↔
      ∃ s, s ∈ ecs.getD [] ∧ s ∈ ers.getD [] := by
    simp [List.length_pos]
  constructor
  · simp only [autocommit_handler_maker]
    split
    · rename_i hlt
      exact ⟨fun _ => hmem.mp hlt, fun _ => ⟨_, rfl⟩⟩
    · rename_i hlt
      constructor
      · rintro ⟨m, hm⟩
        exact absurd hm (by simp)
      · intro hex
        exact absurd (hmem.mpr hex) hlt
  · simp only [autocommit_handler_maker]
    split
    · rename_i hlt
      constructor
      · rintro ⟨h, hh⟩
        exact absurd hh (by simp)
      · intro hall
        obtain ⟨s, hs1, hs2⟩ := hmem.mp hlt
        exact absurd hs2 (hall s hs1)
    · rename_i hlt
      constructor
      · intro _ s hs1 hs2
        exact hlt (hmem.mpr ⟨s, hs1, hs2⟩)
      · intro _
        exact ⟨_, rfl⟩

/-- Witness for C3: overlapping sets fail construction, disjoint sets
succeed. -/
theorem autocommit_handler_maker_fails_iff_witness :
    (∃ msg, autocommit_handler_maker false (some [302]) (some [302]) =
      Except.error msg) ∧
    (∃ h, autocommit_handler_maker false (some [302]) (some [303]) =
      Except.ok h) := by
  constructor
  · exact (autocommit_handler_maker_fails_iff false (some [302])
      (some [302])).1.mpr ⟨302, by decide, by decide⟩
  · exact (autocommit_handler_maker_fails_iff false (some [302])
      (some [303])).2.mpr (by decide)

/-- C1: for every handler produced by `autocommit_handler_maker`, on a
response-start message with a session stored in request scope, the handler
commits the session iff the status lies in 200-299 (200-399 when
`commit_on_redirect` is true) or in the extra-commit set, while not lying in
the extra-rollback set; otherwise it rolls the session back. -/
theorem autocommit_commit_iff_status (c : Bool) (ecs ers : Option (List Nat))
    (cfg : AutocommitHandler) (sb : SessionBehavior) (msg : Message)
    (scope : Scope) (s : Session)
    (hmk : autocommit_handler_maker c ecs ers = Except.ok cfg)
    (hs : get_litestar_scope_state scope SESSION_SCOPE_KEY = some s)
    (ht : msg.type = HTTP_RESPONSE_START) :
    (SessionAction.commit ∈ (cfg.run sb msg scope).actions ↔
       (((200 ≤ msg.status ∧ msg.status ≤ 299) ∨
         (c = true ∧ 200 ≤ msg.status ∧ msg.status ≤ 399) ∨
         msg.status ∈ ecs.getD []) ∧ msg.status ∉ ers.getD [])) ∧
    (SessionAction.rollback ∈ (cfg.run sb msg scope).actions ↔
       ¬ (((200 ≤ msg.status ∧ msg.status ≤ 299) ∨
         (c = true ∧ 200 ≤ msg.status ∧ msg.status ≤ 399) ∨
         msg.status ∈ ecs.getD []) ∧ msg.status ∉ ers.getD [])) := by
  obtain rfl := autocommit_handler_maker_ok c ecs ers cfg hmk
  have hterm : msg.type ∈ SESSION_TERMINUS_ASGI_EVENTS := by
    rw [ht]
    simp [SESSION_TERMINUS_ASGI_EVENTS]
  have hdec := commit_decision_iff c (ecs.getD []) (ers.getD []) msg.status
  have hterm2 : HTTP_RESPONSE_START ∈ SESSION_TERMINUS_ASGI_EVENTS := by
    simp [SESSION_TERMINUS_ASGI_EVENTS]
  by_cases hc : (200 ≤ msg.status ∧
      msg.status < (if c = true then 400 else 300) ∨
      msg.status ∈ ecs.getD []) ∧ msg.status ∉ ers.getD []
  · have hrhs := hdec.mp hc
    simp [AutocommitHandler.run, hs, hterm, hterm2,
      AutocommitHandler.tryStep, AutocommitHandler.commitUpper, ht, hc, hrhs]
  · have hrhs := fun h => hc (hdec.mpr h)
    simp [AutocommitHandler.run, hs, hterm, hterm2,
      AutocommitHandler.tryStep, AutocommitHandler.commitUpper, ht, hc, hrhs]
    intro h1
    by_contra h2
    exact hrhs ⟨h1, h2⟩

/-- Witness for C1: under default configuration status 201 commits, 404
rolls back, 301 rolls back; with `commit_on_redirect=true` 301 commits. -/
theorem autocommit_commit_iff_status_witness :
    SessionAction.commit ∈
      ((⟨false, [], []⟩ : AutocommitHandler).run ⟨false, false⟩
        ⟨HTTP_RESPONSE_START, 201⟩ ⟨[(SESSION_SCOPE_KEY, 0)]⟩).actions ∧
    SessionAction.rollback ∈
      ((⟨false, [], []⟩ : AutocommitHandler).run ⟨false, false⟩
        ⟨HTTP_RESPONSE_START, 404⟩ ⟨[(SESSION_SCOPE_KEY, 0)]⟩).actions ∧
    SessionAction.rollback ∈
      ((⟨false, [], []⟩ : AutocommitHandler).run ⟨false, false⟩
        ⟨HTTP_RESPONSE_START, 301⟩ ⟨[(SESSION_SCOPE_KEY, 0)]⟩).actions ∧
    SessionAction.commit ∈
      ((⟨true, [], []⟩ : AutocommitHandler).run ⟨false, false⟩
        ⟨HTTP_RESPONSE_START, 301⟩ ⟨[(SESSION_SCOPE_KEY, 0)]⟩).actions := by
  refine ⟨?_, ?_, ?_, ?_⟩
  · exact (autocommit_commit_iff_status false none none _ _ _ _ 0 rfl
      (by decide) rfl).1.mpr (by decide)
  · exact (autocommit_commit_iff_status false none none _ _ _ _ 0 rfl
      (by decide) rfl).2.mpr (by decide)
  · exact (autocommit_commit_iff_status false none none _ _ _ _ 0 rfl
      (by decide) rfl).2.mpr (by decide)
  · exact (autocommit_commit_iff_status true none none _ _ _ _ 0 rfl
      (by decide) rfl).1.mpr (by decide)

/-- C2: for every handler produced by `autocommit_handler_maker`, whenever a
session is stored in request scope and the message type is a
session-terminus event, the session is closed and its key removed from
request scope — whatever the commit and rollback behaviour, raising
included — and the exception status of the try-block is the exception
status of the whole call (the original exception propagates). -/
theorem autocommit_cleanup_on_terminus (c : Bool)
    (ecs ers : Option (List Nat)) (cfg : AutocommitHandler)
    (sb : SessionBehavior) (msg : Message) (scope : Scope) (s : Session)
    (hmk : autocommit_handler_maker c ecs ers = Except.ok cfg)
    (hs : get_litestar_scope_state scope SESSION_SCOPE_KEY = some s)
    (ht : msg.type ∈ SESSION_TERMINUS_ASGI_EVENTS) :
    SessionAction.close ∈ (cfg.run sb msg scope).actions ∧
    get_litestar_scope_state (cfg.run sb msg scope).scope SESSION_SCOPE_KEY
      = none ∧
    (cfg.run sb msg scope).raised = (cfg.tryStep sb msg).2 := by
  simp only [AutocommitHandler.run, hs, if_pos ht]
  refine ⟨by simp, ?_, by simp⟩
  simpa [get_litestar_scope_state, delete_litestar_scope_state] using
    mapGet_mapDel_self scope.state SESSION_SCOPE_KEY

/-- Witness for C2: a handler whose commit raises still closes the session,
clears the scope key, and propagates the exception. -/
theorem autocommit_cleanup_on_terminus_witness :
    SessionAction.close ∈
      ((⟨false, [], []⟩ : AutocommitHandler).run ⟨true, false⟩
        ⟨HTTP_RESPONSE_START, 200⟩ ⟨[(SESSION_SCOPE_KEY, 3)]⟩).actions ∧
    get_litestar_scope_state
      ((⟨false, [], []⟩ : AutocommitHandler).run ⟨true, false⟩
        ⟨HTTP_RESPONSE_START, 200⟩ ⟨[(SESSION_SCOPE_KEY, 3)]⟩).scope
      SESSION_SCOPE_KEY = none ∧
    ((⟨false, [], []⟩ : AutocommitHandler).run ⟨true, false⟩
      ⟨HTTP_RESPONSE_START, 200⟩ ⟨[(SESSION_SCOPE_KEY, 3)]⟩).raised = true :=
  by
  have h := autocommit_cleanup_on_terminus false none none ⟨false, [], []⟩
    ⟨true, false⟩ ⟨HTTP_RESPONSE_START, 200⟩ ⟨[(SESSION_SCOPE_KEY, 3)]⟩ 3
    rfl (by decide) (by decide)
  exact ⟨h.1, h.2.1, by rw [h.2.2]; decide⟩

/-- C6: `default_before_send_handler` closes the session and removes its key
exactly when a session is stored and the message type is a terminus event;
it never commits or rolls back; in every other case it leaves the scope
untouched and performs no session operation. -/
theorem default_handler_close_only (msg : Message) (scope : Scope) :
    (SessionAction.commit ∉ (default_before_send_handler msg scope).actions ∧
     SessionAction.rollback ∉
       (default_before_send_handler msg scope).actions) ∧
    (SessionAction.close ∈ (default_before_send_handler msg scope).actions ↔
       (get_litestar_scope_state scope SESSION_SCOPE_KEY).isSome = true ∧
       msg.type ∈ SESSION_TERMINUS_ASGI_EVENTS) ∧
    ((get_litestar_scope_state scope SESSION_SCOPE_KEY).isSome = true ∧
       msg.type ∈ SESSION_TERMINUS_ASGI_EVENTS →
       get_litestar_scope_state (default_before_send_handler msg scope).scope
         SESSION_SCOPE_KEY = none) ∧
    (¬ ((get_litestar_scope_state scope SESSION_SCOPE_KEY).isSome = true ∧
        msg.type ∈ SESSION_TERMINUS_ASGI_EVENTS) →
       (default_before_send_handler msg scope).scope = scope ∧
       (default_before_send_handler msg scope).actions = []) := by
  cases hget : get_litestar_scope_state scope SESSION_SCOPE_KEY with
  | none =>
    simp [default_before_send_handler, hget]
  | some s =>
    by_cases hterm : msg.type ∈ SESSION_TERMINUS_ASGI_EVENTS
    · simp only [default_before_send_handler, hget, if_pos hterm]
      refine ⟨⟨by simp, by simp⟩, by simp [hterm], fun _ => ?_, fun h => ?_⟩
      · simpa [get_litestar_scope_state, delete_litestar_scope_state] using
          mapGet_mapDel_self scope.state SESSION_SCOPE_KEY
      · exact absurd ⟨rfl, hterm⟩ h
    · simp [default_before_send_handler, hget, hterm]

/-- Witness for C6: on a terminus message with a stored session the default
handler deletes the scope key; on a non-terminus message it changes
nothing. -/
theorem default_handler_close_only_witness :
    get_litestar_scope_state
      (default_before_send_handler ⟨"http.disconnect", 0⟩
        ⟨[(SESSION_SCOPE_KEY, 5)]⟩).scope SESSION_SCOPE_KEY = none ∧
    (default_before_send_handler ⟨"http.response.body", 0⟩
        ⟨[(SESSION_SCOPE_KEY, 5)]⟩).scope = ⟨[(SESSION_SCOPE_KEY, 5)]⟩ := by
  constructor
  · exact (default_handler_close_only ⟨"http.disconnect", 0⟩
      ⟨[(SESSION_SCOPE_KEY, 5)]⟩).2.2.1 ⟨by decide, by decide⟩
  · exact ((default_handler_close_only ⟨"http.response.body", 0⟩
      ⟨[(SESSION_SCOPE_KEY, 5)]⟩).2.2.2 (by decide)).1

/-- C5: with a session maker stored in application state, the first
`provide_session` call in a request scope invokes the maker once and stores
the new session under the session scope key; any call finding a stored
session returns it with zero maker invocations and an unchanged scope; in
particular a second call after the first returns the very session the first
created. -/
theorem provide_session_lazy_singleton (cfg : SQLAlchemyAsyncConfig)
    (state : AppState) (scope : Scope) (m : SessionMaker)
    (hm : state.get cfg.session_maker_app_state_key
      = some (StateVal.maker m)) :
    (get_litestar_scope_state scope SESSION_SCOPE_KEY = none →
       cfg.provide_session state scope =
         Except.ok ((m.call).1,
           set_litestar_scope_state scope SESSION_SCOPE_KEY (m.call).1, 1) ∧
       get_litestar_scope_state
         (set_litestar_scope_state scope SESSION_SCOPE_KEY (m.call).1)
         SESSION_SCOPE_KEY = some (m.call).1) ∧
    (∀ s, get_litestar_scope_state scope SESSION_SCOPE_KEY = some s →
       cfg.provide_session state scope = Except.ok (s, scope, 0)) ∧
    (cfg.provide_session state
       (set_litestar_scope_state scope SESSION_SCOPE_KEY (m.call).1) =
       Except.ok ((m.call).1,
         set_litestar_scope_state scope SESSION_SCOPE_KEY (m.call).1, 0)) :=
  by
  have hset : get_litestar_scope_state
      (set_litestar_scope_state scope SESSION_SCOPE_KEY (m.call).1)
      SESSION_SCOPE_KEY = some (m.call).1 := by
    simpa [get_litestar_scope_state, set_litestar_scope_state] using
      mapGet_mapSet_self scope.state SESSION_SCOPE_KEY (m.call).1
  refine ⟨fun hnone => ?_, fun s hsome => ?_, ?_⟩
  · exact ⟨by simp [SQLAlchemyAsyncConfig.provide_session, hnone, hm],
      hset⟩
  · simp [SQLAlchemyAsyncConfig.provide_session, hsome]
  · simp [SQLAlchemyAsyncConfig.provide_session, hset]

/-- Witness for C5: from an empty scope, the first call creates and stores
session 7 from the maker in state, and the second call returns the same
session without another creation. -/
theorem provide_session_lazy_singleton_witness :
    defaultConfig.provide_session
      ⟨[("session_maker_class", StateVal.maker ⟨7⟩)]⟩ ⟨[]⟩ =
      Except.ok (7, ⟨[(SESSION_SCOPE_KEY, 7)]⟩, 1) ∧
    defaultConfig.provide_session
      ⟨[("session_maker_class", StateVal.maker ⟨7⟩)]⟩
      ⟨[(SESSION_SCOPE_KEY, 7)]⟩ =
      Except.ok (7, ⟨[(SESSION_SCOPE_KEY, 7)]⟩, 0) := by
  constructor
  · have h := provide_session_lazy_singleton defaultConfig
      ⟨[("session_maker_class", StateVal.maker ⟨7⟩)]⟩ ⟨[]⟩ ⟨7⟩ (by decide)
    have h1 := (h.1 (by decide)).1
    simpa [set_litestar_scope_state, mapSet, SessionMaker.call] using h1
  · have h := provide_session_lazy_singleton defaultConfig
      ⟨[("session_maker_class", StateVal.maker ⟨7⟩)]⟩
      ⟨[(SESSION_SCOPE_KEY, 7)]⟩ ⟨7⟩ (by decide)
    exact h.2.1 7 (by decide)

/-- C9: `on_shutdown` pops the engine stored under the engine state key and
disposes exactly that engine; afterwards the key is absent from application
state, and a repeated invocation fails with a `KeyError` without disposing
anything. -/
theorem on_shutdown_disposes_once (cfg : SQLAlchemyAsyncConfig)
    (state : AppState) (e : StateVal)
    (he : state.get cfg.engine_app_state_key = some e) :
    ∃ state2, cfg.on_shutdown state = Except.ok (state2, e) ∧
      state2.get cfg.engine_app_state_key = none ∧
      cfg.on_shutdown state2 = Except.error "KeyError" := by
  refine ⟨⟨mapDel state.entries cfg.engine_app_state_key⟩, ?_, ?_, ?_⟩
  · simp [SQLAlchemyAsyncConfig.on_shutdown, AppState.pop, AppState.get]
    simp only [AppState.get] at he
    simp [he]
  · simpa [AppState.get] using
      mapGet_mapDel_self state.entries cfg.engine_app_state_key
  · have hd : mapGet (mapDel state.entries cfg.engine_app_state_key)
        cfg.engine_app_state_key = none :=
      mapGet_mapDel_self state.entries cfg.engine_app_state_key
    simp [SQLAlchemyAsyncConfig.on_shutdown, AppState.pop, hd]

/-- Witness for C9: shutting down a state holding engine 4 disposes engine 4,
removes the key, and a second shutdown raises. -/
theorem on_shutdown_disposes_once_witness :
    defaultConfig.on_shutdown ⟨[("db_engine", StateVal.engine 4)]⟩ =
      Except.ok (⟨[]⟩, StateVal.engine 4) ∧
    defaultConfig.on_shutdown ⟨[]⟩ = Except.error "KeyError" := by
  obtain ⟨state2, h1, _h2, h3⟩ := on_shutdown_disposes_once defaultConfig
    ⟨[("db_engine", StateVal.engine 4)]⟩ (StateVal.engine 4) (by decide)
  have hstate2 : state2 = ⟨[]⟩ := by
    have h := h1
    simp [SQLAlchemyAsyncConfig.on_shutdown, AppState.pop, AppState.get,
      mapGet, mapDel, defaultConfig] at h
    exact h.symm
  rw [hstate2] at h1 h3
  exact ⟨h1, h3⟩

/-- C10: `provide_engine` returns exactly the value stored in application
state under the configured engine key, with no check: when the key is
absent it returns the null sentinel instead of raising. -/
theorem provide_engine_returns_state_value (cfg : SQLAlchemyAsyncConfig)
    (state : AppState) :
    cfg.provide_engine state = state.get cfg.engine_app_state_key ∧
    (state.get cfg.engine_app_state_key = none →
      cfg.provide_engine state = none) := by
  exact ⟨rfl, fun h => h⟩

/-- Witness for C10: on an empty application state the engine provider
returns `none`. -/
theorem provide_engine_returns_state_value_witness :
    defaultConfig.provide_engine ⟨[]⟩ = none :=
  (provide_engine_returns_state_value defaultConfig ⟨[]⟩).2 rfl

/-- C4: the service `update` raises `RepositoryError` exactly when `item_id`
is null and the identifier attribute of the model converted from `data` is
null; on that path no repository call is made (the unit-of-work is
untouched). -/
theorem service_update_error_iff (svc : SQLAlchemyAsyncRepositoryService)
    (data : InputData) (item_id : Val) (id_attribute : Option String) :
    ((svc.update data item_id id_attribute).2.isSome = true ↔
       item_id = none ∧
       svc.repository.get_id_attribute_value (svc.to_model data)
         id_attribute = none) ∧
    ((svc.update data item_id id_attribute).2.isSome = true →
       (svc.update data item_id id_attribute).1 = []) := by
  by_cases hc : item_id = none ∧
      svc.repository.get_id_attribute_value (svc.to_model data)
        id_attribute = none
  · simp [SQLAlchemyAsyncRepositoryService.update, hc]
  · simp [SQLAlchemyAsyncRepositoryService.update, hc]

/-- Witness for C4: updating with no `item_id` and an input entity whose
identifier attribute is unset fails, making no repository call; supplying
`item_id` makes the same update succeed. -/
theorem service_update_error_iff_witness :
    ((⟨⟨"id"⟩⟩ : SQLAlchemyAsyncRepositoryService).update
       (InputData.entity ⟨[("name", some 2)]⟩) none none).2.isSome = true ∧
    ((⟨⟨"id"⟩⟩ : SQLAlchemyAsyncRepositoryService).update
       (InputData.entity ⟨[("name", some 2)]⟩) none none).1 = [] ∧
    ((⟨⟨"id"⟩⟩ : SQLAlchemyAsyncRepositoryService).update
       (InputData.entity ⟨[("name", some 2)]⟩) (some 9) none).2.isSome
      = false := by
  refine ⟨?_, ?_, ?_⟩
  · exact (service_update_error_iff ⟨⟨"id"⟩⟩
      (InputData.entity ⟨[("name", some 2)]⟩) none none).1.mpr
      ⟨rfl, by decide⟩
  · exact (service_update_error_iff ⟨⟨"id"⟩⟩
      (InputData.entity ⟨[("name", some 2)]⟩) none none).2
      ((service_update_error_iff ⟨⟨"id"⟩⟩
        (InputData.entity ⟨[("name", some 2)]⟩) none none).1.mpr
        ⟨rfl, by decide⟩)
  · have h := (service_update_error_iff ⟨⟨"id"⟩⟩
      (InputData.entity ⟨[("name", some 2)]⟩) (some 9) none).1
    simp only [Bool.not_eq_true] at h ⊢
    by_contra hne
    simp only [Bool.not_eq_false] at hne
    exact absurd (h.mp hne).1 (by decide)

/-- C7: the service `upsert` delegates to the repository the converted model
with its identifier attribute overwritten by `item_id` — also when
`item_id` is null — so any identifier carried by `data` is discarded. -/
theorem service_upsert_sets_id (svc : SQLAlchemyAsyncRepositoryService)
    (data : InputData) (item_id : Val) :
    svc.upsert data item_id =
      RepoCall.upsert
        ((svc.to_model data).setAttr svc.repository.id_attribute item_id) ∧
    (∀ e, svc.upsert data item_id = RepoCall.upsert e →
       e.getAttr svc.repository.id_attribute = item_id) := by
  refine ⟨rfl, fun e he => ?_⟩
  have h1 : e = (svc.to_model data).setAttr svc.repository.id_attribute
      item_id := by
    have h2 : RepoCall.upsert e = RepoCall.upsert
        ((svc.to_model data).setAttr svc.repository.id_attribute item_id) :=
      he.symm.trans rfl
    exact (RepoCall.upsert.injEq _ _ ▸ h2)
  rw [h1]
  exact Entity.getAttr_setAttr_self _ _ _

/-- Witness for C7: upserting an entity carrying identifier 7 with a null
`item_id` delegates an entity whose identifier attribute is null. -/
theorem service_upsert_sets_id_witness :
    (((⟨⟨"id"⟩⟩ : SQLAlchemyAsyncRepositoryService).to_model
        (InputData.entity ⟨[("id", some 7)]⟩)).setAttr "id"
          none).getAttr "id" = none := by
  exact (service_upsert_sets_id ⟨⟨"id"⟩⟩
    (InputData.entity ⟨[("id", some 7)]⟩) none).2
    (((⟨⟨"id"⟩⟩ : SQLAlchemyAsyncRepositoryService).to_model
        (InputData.entity ⟨[("id", some 7)]⟩)).setAttr "id" none) rfl

/-- C8: `to_model` passes an entity instance through unchanged and builds an
entity populated from a mapping; every service write operation applies it to
its entity-shaped input before delegating to the repository. -/
theorem to_model_conversion_funnel (svc : SQLAlchemyAsyncRepositoryService)
    (e : Entity) (d : List (String × Val)) (data : InputData)
    (ds : List InputData) (item_id : Val) (ia : Option String)
    (kwargs : List (String × Val)) :
    svc.to_model (InputData.entity e) = e ∧
    svc.to_model (InputData.mapping d) = model_from_dict d ∧
    (∀ k, (model_from_dict d).getAttr k = (mapGet d k).getD none) ∧
    svc.create data = RepoCall.add (svc.to_model data) ∧
    svc.create_many ds = RepoCall.add_many (ds.map svc.to_model) ∧
    (¬ (item_id = none ∧
        svc.repository.get_id_attribute_value (svc.to_model data) ia
          = none) →
       (svc.update data item_id ia).1 =
         [RepoCall.update (if item_id ≠ none then
            svc.repository.set_id_attribute_value item_id (svc.to_model data)
              ia
          else svc.to_model data)]) ∧
    svc.update_many ds = RepoCall.update_many (ds.map svc.to_model) ∧
    svc.upsert data item_id =
      RepoCall.upsert
        (svc.repository.set_id_attribute_value item_id (svc.to_model data)
          none) ∧
    svc.upsert_many ds = RepoCall.upsert_many (ds.map svc.to_model) ∧
    svc.get_or_upsert kwargs =
      RepoCall.get_or_upsert
        (svc.to_model (InputData.mapping kwargs)).to_dict := by
  refine ⟨rfl, rfl, fun k => rfl, rfl, rfl, fun hc => ?_, rfl, rfl, rfl,
    rfl⟩
  simp [SQLAlchemyAsyncRepositoryService.update, hc]

/-- Witness for C8: the conversion funnel evaluated on concrete inputs —
a mapping is materialised as an entity for `create`, and `update` with an
explicit `item_id` delegates the converted model with that identifier. -/
theorem to_model_conversion_funnel_witness :
    (⟨⟨"id"⟩⟩ : SQLAlchemyAsyncRepositoryService).create
      (InputData.mapping [("name", some 1)]) =
      RepoCall.add ⟨[("name", some 1)]⟩ ∧
    ((⟨⟨"id"⟩⟩ : SQLAlchemyAsyncRepositoryService).update
      (InputData.mapping [("name", some 1)]) (some 4) none).1 =
      [RepoCall.update ⟨[("id", some 4), ("name", some 1)]⟩] := by
  have h := to_model_conversion_funnel ⟨⟨"id"⟩⟩ ⟨[]⟩ [("name", some 1)]
    (InputData.mapping [("name", some 1)]) [] (some 4) none []
  refine ⟨h.2.2.2.1, ?_⟩
  have hu := h.2.2.2.2.2.1 (by decide)
  rw [hu]
  decide

end AdvancedAlchemy
